import Mathlib

set_option maxRecDepth 16384

/-!
Shallow embedding of `backend/app/services/gpt_service.py` (CineReads).

Python strings are modelled as `List Char` inside the parsing pipeline and as
`String` for assembled prompt/summary text.  Python `float` literals appearing
in the service (confidence scores and match scores) are modelled as rationals:
the service never performs arithmetic on them, it only stores and compares
them.  A Python exception escaping a function is modelled by `Option`/`Except`
error values.
-/

/-- JSON values as produced by the Python `json` module: objects keep insertion
order with duplicate keys collapsed (last assignment wins, position of the
first occurrence kept), numbers are modelled as rationals, and the
non-standard constants accepted by Python's decoder (`NaN`, `Infinity`,
`-Infinity`) are dedicated constructors. -/
inductive Json where
  | null
  | bool (b : Bool)
  | num (q : Rat)
  | str (s : String)
  | arr (elems : List Json)
  | obj (fields : List (String × Json))
  | nan
  | inf
  | ninf
deriving Repr

/-- Whitespace stripped by Python `str.strip` (ASCII fragment; the service only
ever strips LLM reply text). -/
def isPyWs (c : Char) : Bool :=
  c == ' ' || c == '\t' || c == '\n' || c == '\r' || c == '\x0b' || c == '\x0c'

/-- Whitespace accepted between tokens by Python's strict JSON decoder. -/
def isJsonWs (c : Char) : Bool :=
  c == ' ' || c == '\t' || c == '\n' || c == '\r'

/-- Curly brace test, used by the brace-balancing scan of the service. -/
def isBrace (c : Char) : Bool := c == '\x7b' || c == '\x7d'

/-- Python `s.count(c)` for a single-character needle. -/
def countChar (c : Char) (cs : List Char) : Nat := cs.count c

/-- Python `str.strip()` on both ends. -/
def pyStrip (cs : List Char) : List Char :=
  ((cs.dropWhile isPyWs).reverse.dropWhile isPyWs).reverse

/-- Fuelled worker for Python `str.replace`: scans left to right replacing
non-overlapping occurrences.  The fuel is an upper bound on the number of scan
steps; callers pass the length of the string, which suffices because every
step consumes at least one character. -/
def pyReplaceFuel (pat repl : List Char) : Nat → List Char → List Char
  | 0, s => s
  | _, [] => []
  | fuel + 1, c :: cs =>
    if !pat.isEmpty && pat.isPrefixOf (c :: cs) then
      repl ++ pyReplaceFuel pat repl fuel ((c :: cs).drop pat.length)
    else
      c :: pyReplaceFuel pat repl fuel cs

/-- Python `s.replace(pat, repl)`.  The service only calls it with non-empty
literal patterns. -/
def pyReplace (pat repl s : List Char) : List Char :=
  pyReplaceFuel pat repl s.length s

/-- Python `s.find(c)` for a single character: first index or `-1`. -/
def pyFindChar (cs : List Char) (c : Char) : Int :=
  match cs.findIdx? (fun d => d == c) with
  | some i => (i : Int)
  | none => -1

/-- Python `s.rfind(c)` for a single character: last index or `-1`. -/
def pyRfindChar (cs : List Char) (c : Char) : Int :=
  match cs.reverse.findIdx? (fun d => d == c) with
  | some i => ((cs.length - 1 - i : Nat) : Int)
  | none => -1

/-- Normalise one bound of a Python slice `s[a:b]` (negative indices count
from the end, everything is clamped to the string). -/
def pySliceNorm (len : Nat) (i : Int) : Nat :=
  if i < 0 then (max 0 ((len : Int) + i)).toNat else min i.toNat len

/-- Python slicing `s[a:b]` with full negative-index semantics. -/
def pySlice (cs : List Char) (a b : Int) : List Char :=
  let lo := pySliceNorm cs.length a
  let hi := pySliceNorm cs.length b
  (cs.drop lo).take (hi - lo)

/-- Value of a hexadecimal digit, if any. -/
def hexVal (c : Char) : Option Nat :=
  if '0' ≤ c ∧ c ≤ '9' then some (c.toNat - '0'.toNat)
  else if 'a' ≤ c ∧ c ≤ 'f' then some (c.toNat - 'a'.toNat + 10)
  else if 'A' ≤ c ∧ c ≤ 'F' then some (c.toNat - 'A'.toNat + 10)
  else none

/-- Decimal digit test (ASCII), as used by the JSON number grammar. -/
def isDig (c : Char) : Bool := '0' ≤ c && c ≤ '9'

/-- Numeric value of a digit string. -/
def digitsVal (ds : List Char) : Nat :=
  ds.foldl (fun a c => a * 10 + (c.toNat - '0'.toNat)) 0

/-- Read four hex digits of a `\uXXXX` escape. -/
def parseHex4 : List Char → Option (Nat × List Char)
  | a :: b :: c :: d :: rest => do
    let x ← hexVal a
    let y ← hexVal b
    let z ← hexVal c
    let w ← hexVal d
    some ((((x * 16 + y) * 16 + z) * 16 + w), rest)
  | _ => none

/-- Body of a JSON string literal after the opening quote, per Python's strict
decoder: escape sequences are decoded, raw control characters are rejected,
surrogate pairs in `\u` escapes are combined.  (Python keeps a lone surrogate
as a surrogate code point in the `str`; that is not representable as a Lean
`Char`, so it is mapped to a decode error here — no reply text used by any
claim contains lone surrogates.) -/
def parseStringBody : Nat → List Char → List Char → Except Unit (String × List Char)
  | 0, _, _ => .error ()
  | _, [], _ => .error ()
  | fuel + 1, c :: cs, acc =>
    if c == '\x22' then .ok (String.mk acc.reverse, cs)
    else if c == '\\' then
      match cs with
      | [] => .error ()
      | e :: cs2 =>
        if e == '\x22' then parseStringBody fuel cs2 ('\x22' :: acc)
        else if e == '\\' then parseStringBody fuel cs2 ('\\' :: acc)
        else if e == '/' then parseStringBody fuel cs2 ('/' :: acc)
        else if e == 'b' then parseStringBody fuel cs2 ('\x08' :: acc)
        else if e == 'f' then parseStringBody fuel cs2 ('\x0c' :: acc)
        else if e == 'n' then parseStringBody fuel cs2 ('\n' :: acc)
        else if e == 'r' then parseStringBody fuel cs2 ('\r' :: acc)
        else if e == 't' then parseStringBody fuel cs2 ('\t' :: acc)
        else if e == 'u' then
          match parseHex4 cs2 with
          | none => .error ()
          | some (n, cs3) =>
            if 0xD800 ≤ n ∧ n ≤ 0xDBFF then
              match cs3 with
              | '\\' :: 'u' :: cs4 =>
                match parseHex4 cs4 with
                | some (m, cs5) =>
                  if 0xDC00 ≤ m ∧ m ≤ 0xDFFF then
                    parseStringBody fuel cs5
                      (Char.ofNat (0x10000 + (n - 0xD800) * 0x400 + (m - 0xDC00)) :: acc)
                  else .error ()
                | none => .error ()
              | _ => .error ()
            else if 0xDC00 ≤ n ∧ n ≤ 0xDFFF then .error ()
            else parseStringBody fuel cs3 (Char.ofNat n :: acc)
        else .error ()
    else if c.toNat < 0x20 then .error ()
    else parseStringBody fuel cs (c :: acc)

/-- Optional exponent suffix of a JSON number; applies the sign and returns
the finished value. -/
def parseExpDigits (sgn : Int) (v : Rat) (cs : List Char) : Except Unit (Rat × List Char) :=
  let (esgn, cs1) : Int × List Char :=
    match cs with
    | '+' :: r => (1, r)
    | '-' :: r => (-1, r)
    | _ => (1, cs)
  let ed := cs1.takeWhile isDig
  let r2 := cs1.dropWhile isDig
  if ed.isEmpty then .error ()
  else .ok ((sgn : Rat) * v * (10 : Rat) ^ (esgn * (digitsVal ed : Int)), r2)

/-- Dispatch on the presence of an exponent part. -/
def parseExpPart (sgn : Int) (v : Rat) (cs : List Char) : Except Unit (Rat × List Char) :=
  match cs with
  | 'e' :: r => parseExpDigits sgn v r
  | 'E' :: r => parseExpDigits sgn v r
  | _ => .ok ((sgn : Rat) * v, cs)

/-- JSON number per the grammar used by Python's decoder:
`-? (0 | [1-9][0-9]*) (. [0-9]+)? ([eE][+-]?[0-9]+)?`. -/
def parseNumber (cs : List Char) : Except Unit (Rat × List Char) :=
  let (sgn, cs1) : Int × List Char :=
    match cs with
    | '-' :: r => (-1, r)
    | _ => (1, cs)
  let ip := cs1.takeWhile isDig
  let r1 := cs1.dropWhile isDig
  if ip.isEmpty then .error ()
  else if ip.length > 1 && ip.headD '0' == '0' then .error ()
  else
    let intVal : Rat := (digitsVal ip : Nat)
    match r1 with
    | '.' :: r2 =>
      let fd := r2.takeWhile isDig
      let r3 := r2.dropWhile isDig
      if fd.isEmpty then .error ()
      else parseExpPart sgn (intVal + (digitsVal fd : Rat) / ((10 : Rat) ^ fd.length)) r3
    | _ => parseExpPart sgn intVal r1

/-- Insert a key/value pair into an object the way a Python `dict` does during
decoding: an existing key is overwritten in place, a new key is appended. -/
def objInsert (kvs : List (String × Json)) (k : String) (v : Json) : List (String × Json) :=
  if kvs.any (fun p => p.1 == k) then
    kvs.map (fun p => if p.1 == k then (k, v) else p)
  else kvs ++ [(k, v)]

mutual

/-- JSON value parser (fuelled).  Callers are expected to have skipped leading
whitespace, matching Python's scanner. -/
def parseValue : Nat → List Char → Except Unit (Json × List Char)
  | 0, _ => .error ()
  | fuel + 1, cs =>
    match cs with
    | [] => .error ()
    | c :: rest =>
      if c == '\x22' then
        match parseStringBody (rest.length + 1) rest [] with
        | .ok (s, r) => .ok (.str s, r)
        | .error e => .error e
      else if c == '\x7b' then parseObjBody fuel rest
      else if c == '[' then parseArrBody fuel rest
      else if cs.take 4 == "true".toList then .ok (.bool true, cs.drop 4)
      else if cs.take 5 == "false".toList then .ok (.bool false, cs.drop 5)
      else if cs.take 4 == "null".toList then .ok (.null, cs.drop 4)
      else if cs.take 3 == "NaN".toList then .ok (.nan, cs.drop 3)
      else if cs.take 8 == "Infinity".toList then .ok (.inf, cs.drop 8)
      else if cs.take 9 == "-Infinity".toList then .ok (.ninf, cs.drop 9)
      else
        match parseNumber cs with
        | .ok (q, r) => .ok (.num q, r)
        | .error e => .error e

/-- Object body after the opening brace. -/
def parseObjBody : Nat → List Char → Except Unit (Json × List Char)
  | 0, _ => .error ()
  | fuel + 1, cs =>
    let cs1 := List.dropWhile isJsonWs cs
    match cs1 with
    | '\x7d' :: r => .ok (.obj [], r)
    | _ => parseMembers fuel cs1 []

/-- Members of a non-empty object. -/
def parseMembers : Nat → List Char → List (String × Json) → Except Unit (Json × List Char)
  | 0, _, _ => .error ()
  | fuel + 1, cs, acc =>
    match cs with
    | '\x22' :: r =>
      match parseStringBody (r.length + 1) r [] with
      | .error e => .error e
      | .ok (k, r2) =>
        match List.dropWhile isJsonWs r2 with
        | ':' :: r3 =>
          match parseValue fuel (List.dropWhile isJsonWs r3) with
          | .error e => .error e
          | .ok (v, r4) =>
            let acc2 := objInsert acc k v
            match List.dropWhile isJsonWs r4 with
            | ',' :: r5 => parseMembers fuel (List.dropWhile isJsonWs r5) acc2
            | '\x7d' :: r5 => .ok (.obj acc2, r5)
            | _ => .error ()
        | _ => .error ()
    | _ => .error ()

/-- Array body after the opening bracket. -/
def parseArrBody : Nat → List Char → Except Unit (Json × List Char)
  | 0, _ => .error ()
  | fuel + 1, cs =>
    let cs1 := List.dropWhile isJsonWs cs
    match cs1 with
    | ']' :: r => .ok (.arr [], r)
    | _ => parseElems fuel cs1 []

/-- Elements of a non-empty array. -/
def parseElems : Nat → List Char → List Json → Except Unit (Json × List Char)
  | 0, _, _ => .error ()
  | fuel + 1, cs, acc =>
    match parseValue fuel cs with
    | .error e => .error e
    | .ok (v, r) =>
      match List.dropWhile isJsonWs r with
      | ',' :: r2 => parseElems fuel (List.dropWhile isJsonWs r2) (acc ++ [v])
      | ']' :: r2 => .ok (.arr (acc ++ [v]), r2)
      | _ => .error ()

end

/-- Python `json.loads`: parse one value, then require only whitespace to
remain (`Extra data` otherwise). -/
def json_loads (cs : List Char) : Except Unit Json :=
  let cs1 := List.dropWhile isJsonWs cs
  match parseValue (4 * cs1.length + 4) cs1 with
  | .error e => .error e
  | .ok (v, rest) =>
    if (List.dropWhile isJsonWs rest).isEmpty then .ok v else .error ()

/-- Python exception kinds raised by the code paths of the service. -/
inductive PyErr where
  | typeError
  | attributeError
  | indexError
  | valueError
deriving Repr, DecidableEq

/-- Python truthiness of a decoded JSON value. -/
def pyTruthy : Json → Bool
  | .null => false
  | .bool b => b
  | .num q => q != 0
  | .str s => !s.isEmpty
  | .arr xs => !xs.isEmpty
  | .obj kvs => !kvs.isEmpty
  | .nan => true
  | .inf => true
  | .ninf => true

/-- Truthiness of the result of `dict.get` (where `none` models Python `None`). -/
def optTruthy : Option Json → Bool
  | none => false
  | some v => pyTruthy v

/-- Key lookup in a decoded object.  Decoded objects have unique keys (see
`objInsert`), so the first match is the binding. -/
def objLookup (kvs : List (String × Json)) (k : String) : Option Json :=
  (kvs.find? (fun p => p.1 == k)).map (fun p => p.2)

/-- Key lookup on an arbitrary JSON value (`none` when not an object or
missing); used only to phrase theorem statements. -/
def jsonGet (j : Json) (k : String) : Option Json :=
  match j with
  | .obj kvs => objLookup kvs k
  | _ => none

/-- Substring test on character lists, for Python `needle in haystack` on
strings. -/
def listHasSub (needle hay : List Char) : Bool :=
  hay.tails.any (fun t => needle.isPrefixOf t)

/-- Python `k in d` for a string needle `k`: key membership for a `dict`,
element equality for a `list`, substring test for a `str`, and a `TypeError`
for non-container values. -/
def pyContains (d : Json) (k : String) : Except PyErr Bool :=
  match d with
  | .obj kvs => .ok (kvs.any (fun p => p.1 == k))
  | .arr xs => .ok (xs.any (fun j => match j with | .str s => s == k | _ => false))
  | .str s => .ok (listHasSub k.toList s.toList)
  | _ => .error .typeError

/-- Python `d.get(k, default)`: only `dict` has `.get`; anything else raises
`AttributeError`. -/
def pyGetDefault (d : Json) (k : String) (dflt : Json) : Except PyErr Json :=
  match d with
  | .obj kvs => .ok ((objLookup kvs k).getD dflt)
  | _ => .error .attributeError

/-- Python iteration `for x in d`: list elements, string characters (as
one-character strings), dict keys; a `TypeError` otherwise. -/
def pyIter : Json → Except PyErr (List Json)
  | .arr xs => .ok xs
  | .str s => .ok (s.toList.map (fun c => Json.str (String.mk [c])))
  | .obj kvs => .ok (kvs.map (fun p => Json.str p.1))
  | _ => .error .typeError

/-- `app.models.request_models.UserPreferences` restricted to the fields the
service reads.  Every field is optional; Python truthiness makes `""` and `[]`
behave like an unset field. -/
structure UserPreferences where
  mood : Option String
  pace : Option String
  genre_preferences : Option (List String)
  genre_blocklist : Option (List String)
deriving Repr, DecidableEq

/-- `BookRecommendation` response model.  The service stores decoded JSON
values into the fields without conversion, so fields are kept as `Json`
(`Option Json` where the service can store Python `None`). -/
structure BookRecommendation where
  title : Json
  author : Json
  reason : Json
  taste_match_score : Option Json
  primary_appeal : Option Json
deriving Repr

/-- `TasteProfile` response model, fields as stored by the service. -/
structure TasteProfile where
  themes : Json
  narrative_style : Json
  emotional_tone : Json
  genre_fusion : Json
  character_preferences : Json
  artistic_sensibilities : Json
  confidence_score : Json
deriving Repr

/-- `RecommendationResponse` response model. -/
structure RecommendationResponse where
  movie : String
  books : List BookRecommendation
  taste_profile : TasteProfile
deriving Repr

/-- `GPTService._create_movie_summary`.  The second argument models the
`taste_profile` dict parameter, which the body never reads.  On an empty movie
list the `else` branch evaluates `movies[-1]`, raising `IndexError`, modelled
by `none`. -/
def create_movie_summary (movies : List String) (_tp : Json) : Option String :=
  if movies.length == 1 then
    some ("Based on your interest in " ++ movies.headD "")
  else if movies.length == 2 then
    some ("Based on your taste for " ++ movies.headD "" ++ " and " ++ (movies.drop 1).headD "")
  else
    match movies.getLast? with
    | none => none
    | some lastTitle =>
      some ("Based on your taste profile from " ++ String.intercalate ", " movies.dropLast
        ++ ", and " ++ lastTitle)

/-- The three hardcoded fallback books of `_create_fallback_response`. -/
def fallback_books : List BookRecommendation :=
  [{ title := Json.str "The Seven Husbands of Evelyn Hugo",
     author := Json.str "Taylor Jenkins Reid",
     reason := Json.str "A compelling narrative that combines character depth with emotional complexity, appealing to viewers who appreciate sophisticated storytelling.",
     taste_match_score := some (Json.num (8 / 10)),
     primary_appeal := some (Json.str "Character-driven storytelling") },
   { title := Json.str "Klara and the Sun",
     author := Json.str "Kazuo Ishiguro",
     reason := Json.str "Masterful blend of speculative elements with profound human themes, perfect for those who enjoy thoughtful, emotionally resonant narratives.",
     taste_match_score := some (Json.num (85 / 100)),
     primary_appeal := some (Json.str "Thoughtful speculative fiction") },
   { title := Json.str "The Midnight Library",
     author := Json.str "Matt Haig",
     reason := Json.str "Philosophical exploration of life choices and possibilities, combining accessibility with deeper existential themes.",
     taste_match_score := some (Json.num (75 / 100)),
     primary_appeal := some (Json.str "Philosophical exploration") }]

/-- The hardcoded fallback taste profile of `_create_fallback_response`
(confidence score 0.6). -/
def fallback_taste_profile : TasteProfile :=
  { themes := Json.arr [Json.str "character development", Json.str "emotional depth",
      Json.str "existential themes"],
    narrative_style := Json.str "Layered, character-driven storytelling",
    emotional_tone := Json.str "Thoughtful and introspective",
    genre_fusion := Json.str "Literary fiction with speculative elements",
    character_preferences := Json.str "Complex, well-developed characters",
    artistic_sensibilities := Json.str "Appreciation for literary craftsmanship",
    confidence_score := Json.num (6 / 10) }

/-- `GPTService._create_fallback_response`.  It calls `_create_movie_summary`
with an empty dict, so it itself raises (`none`) on an empty movie list. -/
def create_fallback_response (movies : List String) : Option (List RecommendationResponse) :=
  (create_movie_summary movies (Json.obj [])).map
    (fun s => [{ movie := s, books := fallback_books, taste_profile := fallback_taste_profile }])

/-- Explicit `return self._create_fallback_response(movies)` inside the `try`
block: if building the fallback itself raises, that exception propagates. -/
def fallback_or_raise (movies : List String) : Except PyErr (List RecommendationResponse) :=
  match create_fallback_response movies with
  | some r => .ok r
  | none => .error .indexError

/-- Construction of the `TasteProfile` from `taste_profile_data` (lines
211-219): each field read with `.get` and a default; a non-dict value raises
`AttributeError` at the first `.get`. -/
def build_taste_profile (tpd : Json) : Except PyErr TasteProfile :=
  match tpd with
  | .obj kvs =>
    .ok { themes := (objLookup kvs "themes").getD (Json.arr []),
          narrative_style := (objLookup kvs "narrative_style").getD (Json.str ""),
          emotional_tone := (objLookup kvs "emotional_tone").getD (Json.str ""),
          genre_fusion := (objLookup kvs "genre_fusion").getD (Json.str ""),
          character_preferences := (objLookup kvs "character_preferences").getD (Json.str ""),
          artistic_sensibilities := (objLookup kvs "artistic_sensibilities").getD (Json.str ""),
          confidence_score := (objLookup kvs "confidence_score").getD (Json.num (7 / 10)) }
  | _ => .error .attributeError

/-- The `for book_data in ...` loop (lines 191-203): entries whose `title` or
`author` is missing or falsy are skipped; `.get` on a non-dict entry raises
`AttributeError`. -/
def extract_books : List Json → Except PyErr (List BookRecommendation)
  | [] => .ok []
  | e :: rest =>
    match e with
    | .obj kvs =>
      let t := objLookup kvs "title"
      let a := objLookup kvs "author"
      if !optTruthy t || !optTruthy a then extract_books rest
      else
        match extract_books rest with
        | .error err => .error err
        | .ok bs =>
          .ok ({ title := t.getD Json.null, author := a.getD Json.null,
                 reason := (objLookup kvs "reason").getD (Json.str ""),
                 taste_match_score := objLookup kvs "taste_match_score",
                 primary_appeal := objLookup kvs "primary_appeal" } :: bs)
    | _ => .error .attributeError

/-- Processing of the decoded JSON value (lines 185-228 of
`_parse_unified_response`): validation of `unified_recommendations`, book
extraction, taste-profile construction and summary. -/
def process_data (data : Json) (movies : List String) : Except PyErr (List RecommendationResponse) :=
  match pyContains data "unified_recommendations" with
  | .error e => .error e
  | .ok false => fallback_or_raise movies
  | .ok true =>
    match pyGetDefault data "unified_recommendations" (Json.arr []) with
    | .error e => .error e
    | .ok recsJ =>
      match pyIter recsJ with
      | .error e => .error e
      | .ok entries =>
        match extract_books entries with
        | .error e => .error e
        | .ok books =>
          if books.isEmpty then fallback_or_raise movies
          else
            match pyGetDefault data "taste_profile" (Json.obj []) with
            | .error e => .error e
            | .ok tpd =>
              match build_taste_profile tpd with
              | .error e => .error e
              | .ok tp =>
                match create_movie_summary movies tpd with
                | none => .error .indexError
                | some summary => .ok [{ movie := summary, books := books, taste_profile := tp }]

/-- Markdown/heading cleanup of the reply (lines 142-147). -/
def clean_content (cs : List Char) : List Char :=
  let s1 := pyStrip cs
  let s2 := pyReplace "```json".toList [] s1
  let s3 := pyReplace "```".toList [] s2
  let s4 := pyReplace "**STEP 1 - TASTE ANALYSIS:**".toList [] s3
  pyReplace "**STEP 2 - BOOK RECOMMENDATIONS:**".toList [] s4

/-- Brace-counting scan of lines 154-163, started at the first brace: returns
the length of the prefix ending at the brace where the count first returns to
zero, or `none` when it never does. -/
def braceScanLen : List Char → Int → Nat → Option Nat
  | [], _, _ => none
  | c :: rest, depth, n =>
    if c == '\x7b' then braceScanLen rest (depth + 1) (n + 1)
    else if c == '\x7d' then
      if depth - 1 == 0 then some (n + 1)
      else braceScanLen rest (depth - 1) (n + 1)
    else braceScanLen rest depth (n + 1)

/-- Python `json_str[:last_quote]` where `last_quote = json_str.rfind(chr(34))`
(everything before the last double quote; `[: -1]` when there is none). -/
def truncAtLastQuote (js : List Char) : List Char :=
  match js.reverse.dropWhile (fun c => c != '\x22') with
  | [] => js.dropLast
  | _ :: r => r.reverse

/-- Quote-balance repair (lines 170-175): when the double-quote count is odd,
truncate at the last quote and append one closing brace per unmatched opening
brace (Python appends nothing when the difference is negative). -/
def repair_quotes (js : List Char) : List Char :=
  if countChar '\x22' js % 2 != 0 then
    let js2 := truncAtLastQuote js
    let openBraces : Int := (countChar '\x7b' js2 : Int) - (countChar '\x7d' js2 : Int)
    js2 ++ List.replicate openBraces.toNat '\x7d'
  else js

/-- JSON-substring extraction (lines 150-166): everything from the first brace
to the balanced closing brace; `none` when there is no opening brace or the
scan never balances. -/
def extract_json_str (cleaned : List Char) : Option (List Char) :=
  let tail := cleaned.dropWhile (fun c => c != '\x7b')
  match tail with
  | [] => none
  | _ =>
    match braceScanLen tail 0 0 with
    | none => none
    | some n => some (tail.take n)

/-- Body of `_parse_unified_response` as run inside its `try` block; an
`Except` error is an exception reaching the handlers. -/
def parse_pipeline (content : List Char) (movies : List String) :
    Except PyErr (List RecommendationResponse) :=
  match extract_json_str (clean_content content) with
  | none => fallback_or_raise movies
  | some js0 =>
    let js1 := pyReplace ['\n'] [' '] js0
    let js2 := pyReplace ['\r'] [] js1
    let js3 := repair_quotes js2
    match json_loads js3 with
    | .error _ => .error .valueError
    | .ok data => process_data data movies

/-- `GPTService._parse_unified_response`: on any exception inside the `try`
block, the handlers return the fallback — which itself raises when the movie
list is empty, giving `none`. -/
def parse_unified_response (content : String) (movies : List String) :
    Option (List RecommendationResponse) :=
  match parse_pipeline content.toList movies with
  | .ok r => some r
  | .error _ => create_fallback_response movies

/-- `GPTService._get_json_schema` (lines 64-85), the literal example schema
appended to every generation prompt. -/
def json_schema : String :=
  "\x7b\n  \"taste_profile\": \x7b\n    \"themes\": [\"theme1\", \"theme2\", \"theme3\"],\n    \"narrative_style\": \"concise description of storytelling preferences\",\n    \"emotional_tone\": \"preferred emotional register\",\n    \"genre_fusion\": \"genre preferences and blending patterns\",\n    \"character_preferences\": \"preferred character archetypes and development\",\n    \"artistic_sensibilities\": \"aesthetic and stylistic preferences\",\n    \"confidence_score\": 0.85\n  \x7d,\n  \"unified_recommendations\": [\n    \x7b\n      \"title\": \"Book Title\",\n      \"author\": \"Author Name\", \n      \"reason\": \"75+ word explanation connecting to unified taste profile\",\n      \"taste_match_score\": 0.95,\n      \"primary_appeal\": \"core aspect of taste this book satisfies\"\n    \x7d\n  ]\n\x7d"

/-- Opening line of the generation prompt (lines 92-96): single-movie wording
versus multi-movie wording. -/
def analysis_instruction (movies : List String) : String :=
  if movies.length == 1 then
    "Analyze " ++ movies.headD "" ++ " to extract the viewer's aesthetic preferences:"
  else
    "Find the unified taste pattern across: " ++ String.intercalate ", " movies

/-- The fixed two-step analysis section of the generation prompt (lines
98-113), parameterised by the configured books-per-recommendation count. -/
def prompt_core (movies : List String) (books_count : Nat) : String :=
  analysis_instruction movies
    ++ "\n\nSTEP 1 - TASTE ANALYSIS:\nExtract the aesthetic DNA by identifying:\n• Recurring themes and emotional territories\n• Narrative complexity preferences (linear/non-linear, character vs. plot-driven)\n• Tonal signatures (dark/light, realistic/fantastical, introspective/action-oriented)\n• Character archetype preferences and relationship dynamics\n• Visual/atmospheric sensibilities that translate to literary mood\n\nSTEP 2 - BOOK RECOMMENDATIONS:\nSelect "
    ++ toString books_count
    ++ " books that share this aesthetic DNA. Prioritize:\n• Thematic resonance over genre matching\n• Narrative sophistication level alignment\n• Emotional and tonal consistency\n• Character depth matching viewer preferences"

/-- Closing section of the generation prompt (lines 130-134). -/
def prompt_tail : String :=
  "\n\nCRITICAL: Respond with ONLY the JSON below. No explanations, no markdown, no extra text:\n\n"
    ++ json_schema

/-- Constraint bullet lines built from the preferences (lines 117-125), in the
fixed order mood, pace, favoured genres, avoided genres; a falsy field (unset,
empty string or empty list) contributes nothing. -/
def constraint_list (p : UserPreferences) : List String :=
  (match p.mood with
   | some m => if m.isEmpty then [] else ["Mood alignment: " ++ m]
   | none => []) ++
  (match p.pace with
   | some pc => if pc.isEmpty then [] else ["Pacing: " ++ pc]
   | none => []) ++
  (match p.genre_preferences with
   | some gs => if gs.isEmpty then [] else ["Favor: " ++ String.intercalate ", " gs]
   | none => []) ++
  (match p.genre_blocklist with
   | some gs => if gs.isEmpty then [] else ["Avoid: " ++ String.intercalate ", " gs]
   | none => [])

/-- `GPTService._build_unified_prompt` (lines 87-136).  `books_count` models
`getattr(settings, 'books_per_recommendation', 3)` from the external settings
collaborator. -/
def build_unified_prompt (movies : List String) (preferences : Option UserPreferences)
    (books_count : Nat) : String :=
  let base := prompt_core movies books_count
  let withConstraints :=
    match preferences with
    | none => base
    | some p =>
      let cl := constraint_list p
      if cl.isEmpty then base
      else base ++ "\n\nCONSTRAINTS:\n• " ++ String.intercalate "\n• " cl
  withConstraints ++ prompt_tail

/-- Outcome of the chat-completion call, the external collaborator: either the
transport raises, or it returns some reply text. -/
inductive LLMOutcome where
  | raises
  | replies (content : String)

/-- `GPTService.generate_recommendations` (lines 21-45): the prompt is built
before the `try` block, the LLM call happens inside it, any exception from the
call is converted to the fallback, and the reply text is handed to
`_parse_unified_response`.  `none` models an exception escaping to the
caller. -/
def generate_recommendations (movies : List String) (preferences : Option UserPreferences)
    (books_count : Nat) (outcome : LLMOutcome) : Option (List RecommendationResponse) :=
  let _prompt := build_unified_prompt movies preferences books_count
  match outcome with
  | .raises => create_fallback_response movies
  | .replies content => parse_unified_response content movies

/-- The hardcoded fallback mapping of `analyze_taste_profile` (lines 343-351),
confidence score 0.5. -/
def analyze_fallback : Json :=
  Json.obj
    [("themes", Json.arr [Json.str "character-driven narratives", Json.str "emotional complexity"]),
     ("narrative_style", Json.str "Layered, sophisticated storytelling"),
     ("emotional_tone", Json.str "Thoughtful and emotionally resonant"),
     ("genre_fusion", Json.str "Cross-genre sensibilities"),
     ("character_preferences", Json.str "Complex, well-developed characters"),
     ("artistic_sensibilities", Json.str "Appreciation for narrative craftsmanship"),
     ("confidence_score", Json.num (5 / 10))]

/-- Reply handling of `analyze_taste_profile` (lines 334-339): slice between
the first brace and one past the last closing brace (Python slice semantics,
including the `-1` results of a failed `find`/`rfind`), then `json.loads`
directly — no brace balancing, no quote repair. -/
def analyze_parse (content : List Char) : Except Unit Json :=
  let a := pyFindChar content '\x7b'
  let b := pyRfindChar content '\x7d' + 1
  json_loads (pySlice content a b)

/-- `GPTService.analyze_taste_profile` (lines 294-351): any failure — a
transport error or any parsing exception — yields the hardcoded
`analyze_fallback` mapping. -/
def analyze_taste_profile (movies : List String) (outcome : LLMOutcome) : Json :=
  let _movies_str := String.intercalate ", " movies
  match outcome with
  | .raises => analyze_fallback
  | .replies content =>
    match analyze_parse content.toList with
    | .ok j => j
    | .error _ => analyze_fallback

/-- A concrete LLM reply exercising the truncation-repair path: it ends in the
truncated string value `"reason": "a great book` (nothing after it, in
particular no closing braces), and inside the brace-balanced substring the
double-quote count is odd, so the parser truncates at the last quote and
appends closing braces. -/
def c2_reply : String :=
  "\x7b\"unified_recommendations\": [\x7b\"title\": \"T\", \"author\": \"A\", \"reason\": \"a great\"\x7d], \"taste_profile\": \x7b\"\x7d\x7d \"reason\": \"a great book"

/-- The brace-balanced substring the parser extracts from `c2_reply` (the
closing braces are supplied by characters inside the truncated trailing
string). -/
def c2_extracted : String :=
  "\x7b\"unified_recommendations\": [\x7b\"title\": \"T\", \"author\": \"A\", \"reason\": \"a great\"\x7d], \"taste_profile\": \x7b\"\x7d\x7d"

/-- Proof helper: whether the brace scan never balances, ignoring the running
index of `braceScanLen`. -/
def braceScanNone : List Char → Int → Bool
  | [], _ => true
  | c :: rest, depth =>
    if c == '\x7b' then braceScanNone rest (depth + 1)
    else if c == '\x7d' then
      if depth - 1 == 0 then false else braceScanNone rest (depth - 1)
    else braceScanNone rest depth

theorem braceScanLen_eq_none_iff (cs : List Char) :
    ∀ (d : Int) (n : Nat), braceScanLen cs d n = none ↔ braceScanNone cs d = true := by
  induction cs with
  | nil => intro d n; simp [braceScanLen, braceScanNone]
  | cons c rest ih =>
    intro d n
    by_cases h1 : c == '\x7b'
    · simp [braceScanLen, braceScanNone, h1, ih]
    · by_cases h2 : c == '\x7d'
      · by_cases h3 : d - 1 == 0 <;> simp [braceScanLen, braceScanNone, h1, h2, h3, ih]
      · simp [braceScanLen, braceScanNone, h1, h2, ih]

theorem braceScanNone_filter (cs : List Char) :
    ∀ d : Int, braceScanNone cs d = braceScanNone (cs.filter isBrace) d := by
  induction cs with
  | nil => intro d; rfl
  | cons c rest ih =>
    intro d
    by_cases h1 : c == '\x7b'
    · have hb : isBrace c = true := by simp [isBrace, h1]
      simp [braceScanNone, h1, hb, List.filter_cons, ih]
    · by_cases h2 : c == '\x7d'
      · have hb : isBrace c = true := by simp [isBrace, h2]
        by_cases h3 : d - 1 == 0 <;>
          simp [braceScanNone, h1, h2, h3, hb, List.filter_cons, ih]
      · have hb : isBrace c = false := by simp [isBrace, h1, h2]
        simp [braceScanNone, h1, h2, hb, List.filter_cons, ih]

theorem filter_dropWhile_of_imp (p q : Char → Bool) (h : ∀ c, q c = true → p c = false)
    (l : List Char) : (l.dropWhile q).filter p = l.filter p := by
  induction l with
  | nil => rfl
  | cons c rest ih =>
    by_cases hq : q c
    · simp [List.dropWhile_cons, hq, List.filter_cons, h c hq, ih]
    · simp [List.dropWhile_cons, hq, List.filter_cons]

theorem isPyWs_not_isBrace (c : Char) (h : isPyWs c = true) : isBrace c = false := by
  simp only [isPyWs, Bool.or_eq_true, beq_iff_eq] at h
  rcases h with ((((h | h) | h) | h) | h) | h <;> subst h <;> rfl

theorem filter_isBrace_pyStrip (l : List Char) :
    (pyStrip l).filter isBrace = l.filter isBrace := by
  unfold pyStrip
  rw [List.filter_reverse, filter_dropWhile_of_imp _ _ isPyWs_not_isBrace,
    List.filter_reverse, List.reverse_reverse,
    filter_dropWhile_of_imp _ _ isPyWs_not_isBrace]

theorem filter_pyReplaceFuel_del (p : Char → Bool) (pat : List Char)
    (hpat : ∀ c ∈ pat, p c = false) :
    ∀ (fuel : Nat) (s : List Char), (pyReplaceFuel pat [] fuel s).filter p = s.filter p := by
  intro fuel
  induction fuel with
  | zero => intro s; cases s <;> rfl
  | succ n ih =>
    intro s
    cases s with
    | nil => rfl
    | cons c cs =>
      by_cases hp : (!pat.isEmpty && pat.isPrefixOf (c :: cs)) = true
      · have hp2 : pat.isPrefixOf (c :: cs) = true := by
          revert hp; cases h1 : pat.isEmpty <;> cases h2 : pat.isPrefixOf (c :: cs) <;> simp
        have hpre : pat <+: (c :: cs) := List.isPrefixOf_iff_prefix.mp hp2
        obtain ⟨t, ht⟩ := hpre
        have hdrop : (c :: cs).drop pat.length = t := by
          rw [← ht]; exact List.drop_left ..
        have hfpat : pat.filter p = [] := by
          rw [List.filter_eq_nil_iff]; intro a ha; simp [hpat a ha]
        rw [pyReplaceFuel, if_pos hp, List.nil_append, ih, hdrop, ← ht,
          List.filter_append, hfpat, List.nil_append]
      · rw [pyReplaceFuel, if_neg hp]
        by_cases hc : p c <;> simp [List.filter_cons, hc, ih]

theorem filter_pyReplace_del (p : Char → Bool) (pat : List Char)
    (hpat : ∀ c ∈ pat, p c = false) (s : List Char) :
    (pyReplace pat [] s).filter p = s.filter p :=
  filter_pyReplaceFuel_del p pat hpat s.length s

theorem filter_isBrace_clean (cs : List Char) :
    (clean_content cs).filter isBrace = cs.filter isBrace := by
  unfold clean_content
  rw [filter_pyReplace_del _ _ (by decide), filter_pyReplace_del _ _ (by decide),
    filter_pyReplace_del _ _ (by decide), filter_pyReplace_del _ _ (by decide),
    filter_isBrace_pyStrip]

theorem filter_isBrace_dropToBrace (cs : List Char) :
    (cs.dropWhile (fun c => c != '\x7b')).filter isBrace
      = (cs.filter isBrace).dropWhile (fun c => c != '\x7b') := by
  induction cs with
  | nil => rfl
  | cons c rest ih =>
    by_cases h1 : c = '\x7b'
    · subst h1
      simp [List.dropWhile_cons, List.filter_cons, isBrace]
    · by_cases h2 : c = '\x7d'
      · subst h2
        simp [List.dropWhile_cons, List.filter_cons, isBrace, ih]
      · have hb : isBrace c = false := by
          simp [isBrace]
          exact ⟨h1, h2⟩
        have hne : (c != '\x7b') = true := by simp [h1]
        simp [List.dropWhile_cons, List.filter_cons, hb, hne, ih]

theorem parse_of_extract_none (content : String) (movies : List String)
    (h : extract_json_str (clean_content content.toList) = none) :
    parse_unified_response content movies = create_fallback_response movies := by
  unfold parse_unified_response parse_pipeline
  rw [h]
  unfold fallback_or_raise
  cases hc : create_fallback_response movies <;> simp

theorem braceScanNone_clean_tail (content : String)
    (h : braceScanNone (content.toList.dropWhile (fun c => c != '\x7b')) 0 = true) :
    braceScanNone ((clean_content content.toList).dropWhile (fun c => c != '\x7b')) 0 = true := by
  rw [braceScanNone_filter, filter_isBrace_dropToBrace, filter_isBrace_clean,
    ← filter_isBrace_dropToBrace, ← braceScanNone_filter]
  exact h

theorem create_fallback_shape (movies : List String) (r : List RecommendationResponse)
    (h : create_fallback_response movies = some r) :
    ∃ s, r = [{ movie := s, books := fallback_books, taste_profile := fallback_taste_profile }] := by
  unfold create_fallback_response at h
  cases hs : create_movie_summary movies (Json.obj []) with
  | none => rw [hs] at h; cases h
  | some s => rw [hs] at h; exact ⟨s, (Option.some_injective _ h).symm⟩

theorem fallback_or_raise_ok (movies : List String) (r : List RecommendationResponse)
    (h : fallback_or_raise movies = .ok r) : create_fallback_response movies = some r := by
  unfold fallback_or_raise at h
  cases hc : create_fallback_response movies with
  | none => rw [hc] at h; cases h
  | some v => rw [hc] at h; cases h; rfl

theorem fallback_books_ne_nil : fallback_books ≠ [] := by simp [fallback_books]

theorem process_shape (data : Json) (movies : List String) :
    match process_data data movies with
    | .ok rs => ∃ r, rs = [r] ∧ r.books ≠ []
    | .error _ => True := by
  have hfb : match fallback_or_raise movies with
      | .ok rs => ∃ r, rs = [r] ∧ r.books ≠ []
      | .error (_ : PyErr) => True := by
    cases hf : fallback_or_raise movies with
    | ok rs =>
      obtain ⟨s, rfl⟩ := create_fallback_shape movies rs (fallback_or_raise_ok movies rs hf)
      exact ⟨_, rfl, fallback_books_ne_nil⟩
    | error e => trivial
  unfold process_data
  cases pyContains data "unified_recommendations" with
  | error e => trivial
  | ok b =>
    cases b with
    | false => exact hfb
    | true =>
      dsimp only
      cases pyGetDefault data "unified_recommendations" (Json.arr []) with
      | error e => trivial
      | ok recsJ =>
        dsimp only
        cases pyIter recsJ with
        | error e => trivial
        | ok entries =>
          dsimp only
          cases extract_books entries with
          | error e => trivial
          | ok books =>
            dsimp only
            by_cases hb : books.isEmpty
            · rw [if_pos hb]; exact hfb
            · rw [if_neg hb]
              cases pyGetDefault data "taste_profile" (Json.obj []) with
              | error e => trivial
              | ok tpd =>
                dsimp only
                cases build_taste_profile tpd with
                | error e => trivial
                | ok tp =>
                  dsimp only
                  cases create_movie_summary movies tpd with
                  | none => trivial
                  | some summary =>
                    dsimp only
                    refine ⟨_, rfl, ?_⟩
                    simpa [List.isEmpty_iff] using hb

theorem pipeline_shape (content : List Char) (movies : List String) :
    match parse_pipeline content movies with
    | .ok rs => ∃ r, rs = [r] ∧ r.books ≠ []
    | .error _ => True := by
  have hfb : match fallback_or_raise movies with
      | .ok rs => ∃ r, rs = [r] ∧ r.books ≠ []
      | .error (_ : PyErr) => True := by
    cases hf : fallback_or_raise movies with
    | ok rs =>
      obtain ⟨s, rfl⟩ := create_fallback_shape movies rs (fallback_or_raise_ok movies rs hf)
      exact ⟨_, rfl, fallback_books_ne_nil⟩
    | error e => trivial
  unfold parse_pipeline
  cases extract_json_str (clean_content content) with
  | none => exact hfb
  | some js0 =>
    dsimp only
    cases json_loads (repair_quotes (pyReplace ['\r'] [] (pyReplace ['\n'] [' '] js0))) with
    | error e => trivial
    | ok data => exact process_shape data movies

theorem create_movie_summary_empty (tp : Json) : create_movie_summary [] tp = none := rfl

theorem fallback_or_raise_empty : fallback_or_raise [] = .error .indexError := rfl

theorem process_empty (data : Json) :
    match process_data data [] with
    | .ok _ => False
    | .error _ => True := by
  have hfb : match fallback_or_raise [] with
      | .ok (_ : List RecommendationResponse) => False
      | .error (_ : PyErr) => True := by
    rw [fallback_or_raise_empty]; trivial
  unfold process_data
  cases pyContains data "unified_recommendations" with
  | error e => trivial
  | ok b =>
    cases b with
    | false => exact hfb
    | true =>
      dsimp only
      cases pyGetDefault data "unified_recommendations" (Json.arr []) with
      | error e => trivial
      | ok recsJ =>
        dsimp only
        cases pyIter recsJ with
        | error e => trivial
        | ok entries =>
          dsimp only
          cases extract_books entries with
          | error e => trivial
          | ok books =>
            dsimp only
            by_cases hb : books.isEmpty
            · rw [if_pos hb]; exact hfb
            · rw [if_neg hb]
              cases pyGetDefault data "taste_profile" (Json.obj []) with
              | error e => trivial
              | ok tpd =>
                dsimp only
                cases build_taste_profile tpd with
                | error e => trivial
                | ok tp =>
                  dsimp only
                  rw [create_movie_summary_empty tpd]
                  trivial

theorem pipeline_empty (content : List Char) :
    match parse_pipeline content [] with
    | .ok _ => False
    | .error _ => True := by
  have hfb : match fallback_or_raise [] with
      | .ok (_ : List RecommendationResponse) => False
      | .error (_ : PyErr) => True := by
    rw [fallback_or_raise_empty]; trivial
  unfold parse_pipeline
  cases extract_json_str (clean_content content) with
  | none => exact hfb
  | some js0 =>
    dsimp only
    cases json_loads (repair_quotes (pyReplace ['\r'] [] (pyReplace ['\n'] [' '] js0))) with
    | error e => trivial
    | ok data => exact process_empty data

theorem create_movie_summary_isSome (movies : List String) (tp : Json) (h : movies ≠ []) :
    ∃ s, create_movie_summary movies tp = some s := by
  rcases List.eq_nil_or_concat movies with rfl | ⟨L, b, rfl⟩
  · exact absurd rfl h
  · unfold create_movie_summary
    by_cases h1 : ((L.concat b).length == 1) = true
    · exact ⟨_, by rw [if_pos h1]⟩
    · by_cases h2 : ((L.concat b).length == 2) = true
      · exact ⟨_, by rw [if_neg h1, if_pos h2]⟩
      · exact ⟨_, by
          rw [if_neg h1, if_neg h2, List.concat_eq_append, List.getLast?_concat]⟩

/-- C1: for every non-empty list of movie titles, every optional preferences
value and every outcome of the LLM call — any reply text whatsoever (empty,
non-JSON, truncated) or a transport exception — `generate_recommendations`
returns normally (`some`) with exactly one `RecommendationResponse` whose book
list is non-empty.  The taste profile of the result is fully populated by
construction: both the success path and the fallback build a `TasteProfile`
with every field set (missing reply fields are defaulted). -/
theorem spec_C1 (movies : List String) (preferences : Option UserPreferences)
    (books_count : Nat) (outcome : LLMOutcome) (h : movies ≠ []) :
    ∃ r, generate_recommendations movies preferences books_count outcome = some [r]
      ∧ r.books ≠ [] := by
  unfold generate_recommendations
  cases outcome with
  | raises =>
    obtain ⟨s, hs⟩ := create_movie_summary_isSome movies (Json.obj []) h
    refine ⟨⟨s, fallback_books, fallback_taste_profile⟩, ?_, fallback_books_ne_nil⟩
    unfold create_fallback_response
    rw [hs]
    rfl
  | replies content =>
    dsimp only
    unfold parse_unified_response
    cases hp : parse_pipeline content.toList movies with
    | ok rs =>
      have hsh := pipeline_shape content.toList movies
      rw [hp] at hsh
      obtain ⟨r, rfl, hr⟩ := hsh
      exact ⟨r, rfl, hr⟩
    | error e =>
      obtain ⟨s, hs⟩ := create_movie_summary_isSome movies (Json.obj []) h
      refine ⟨⟨s, fallback_books, fallback_taste_profile⟩, ?_, fallback_books_ne_nil⟩
      dsimp only
      unfold create_fallback_response
      rw [hs]
      rfl

theorem spec_C1_witness :
    (["Inception"] : List String) ≠ [] ∧
      ∃ r, generate_recommendations ["Inception"] none 3 (.replies "") = some [r]
        ∧ r.books ≠ [] :=
  ⟨by decide, spec_C1 ["Inception"] none 3 (.replies "") (by decide)⟩

/-- C3: a reply text with no opening brace at all, and likewise a reply text
in which the brace depth counted from the first opening brace never returns to
zero, always routes `_parse_unified_response` to the fallback response — such
input never produces a parsed result. -/
theorem spec_C3 (content : String) (movies : List String)
    (h : '\x7b' ∉ content.toList ∨
      braceScanLen (content.toList.dropWhile (fun c => c != '\x7b')) 0 0 = none) :
    parse_unified_response content movies = create_fallback_response movies := by
  have hscan : braceScanNone (content.toList.dropWhile (fun c => c != '\x7b')) 0 = true := by
    rcases h with h | h
    · have hnil : content.toList.dropWhile (fun c => c != '\x7b') = [] := by
        rw [List.dropWhile_eq_nil_iff]
        intro x hx
        simp only [bne_iff_ne, ne_eq]
        intro hxe
        exact h (hxe ▸ hx)
      rw [hnil]
      rfl
    · exact (braceScanLen_eq_none_iff _ 0 0).mp h
  have hclean := braceScanNone_clean_tail content hscan
  apply parse_of_extract_none
  unfold extract_json_str
  cases ht : (clean_content content.toList).dropWhile (fun c => c != '\x7b') with
  | nil => rfl
  | cons c cs =>
    dsimp only
    rw [ht] at hclean
    have : braceScanLen (c :: cs) 0 0 = none := (braceScanLen_eq_none_iff _ 0 0).mpr hclean
    rw [this]

theorem spec_C3_witness :
    '\x7b' ∉ "The weather is nice today.".toList ∧
      parse_unified_response "The weather is nice today." ["Alien"]
        = create_fallback_response ["Alien"] :=
  ⟨by decide, spec_C3 "The weather is nice today." ["Alien"] (Or.inl (by decide))⟩

/-- C4: `_create_movie_summary` produces, for one movie `m`,
`Based on your interest in m`; for two movies, `Based on your taste for A and
B`; and for three or more, `Based on your taste profile from` the comma-joined
initial titles followed by `, and` and the last title — independently of the
taste-profile argument. -/
theorem spec_C4 :
    (∀ (m : String) (tp : Json),
        create_movie_summary [m] tp = some ("Based on your interest in " ++ m))
    ∧ (∀ (a b : String) (tp : Json),
        create_movie_summary [a, b] tp = some ("Based on your taste for " ++ a ++ " and " ++ b))
    ∧ (∀ (front : List String) (last1 : String) (tp : Json), 2 ≤ front.length →
        create_movie_summary (front ++ [last1]) tp =
          some ("Based on your taste profile from " ++ String.intercalate ", " front
            ++ ", and " ++ last1)) := by
  refine ⟨fun m tp => rfl, fun a b tp => rfl, fun front last1 tp h => ?_⟩
  unfold create_movie_summary
  have h1 : ((front ++ [last1]).length == 1) = false := by
    simp only [List.length_append, List.length_cons, List.length_nil, beq_eq_false_iff_ne, ne_eq]
    omega
  have h2 : ((front ++ [last1]).length == 2) = false := by
    simp only [List.length_append, List.length_cons, List.length_nil, beq_eq_false_iff_ne, ne_eq]
    omega
  simp only [h1, h2, Bool.false_eq_true, if_false, List.getLast?_concat, List.dropLast_concat]

theorem spec_C4_witness :
    2 ≤ (["A", "B"] : List String).length ∧
      create_movie_summary (["A", "B"] ++ ["C"]) (Json.obj [])
        = some ("Based on your taste profile from " ++ String.intercalate ", " ["A", "B"]
            ++ ", and " ++ "C") :=
  ⟨by decide, spec_C4.2.2 ["A", "B"] "C" (Json.obj []) (by decide)⟩

/-- C5 counterexample: for the two-element movie list `["A", "B"]` the summary
built by the code is `Based on your taste for A and B`, not
`Based on your interest in A and B` as the claim states. -/
theorem spec_C5_cex :
    create_movie_summary ["A", "B"] (Json.obj []) = some "Based on your taste for A and B"
      ∧ create_movie_summary ["A", "B"] (Json.obj []) ≠ some "Based on your interest in A and B" :=
  ⟨rfl, by decide⟩

/-- C5 amended: for every two-element movie list `[m1, m2]` the summary built
in step 4 of generation is `Based on your taste for m1 and m2` (the
`interest in` wording is used only for a single movie), and for every movie
list the summary depends only on the movie list, not on any parsed reply
content. -/
theorem spec_C5_amended :
    (∀ (m1 m2 : String) (tp : Json),
        create_movie_summary [m1, m2] tp
          = some ("Based on your taste for " ++ m1 ++ " and " ++ m2))
    ∧ (∀ (movies : List String) (tp tp2 : Json),
        create_movie_summary movies tp = create_movie_summary movies tp2) :=
  ⟨fun _ _ _ => rfl, fun _ _ _ => rfl⟩

/-- C10: on the empty movie list the fallback path itself raises:
`_create_movie_summary` evaluates `movies[-1]` in its `else` branch
(`IndexError`, modelled by `none`), `_create_fallback_response` therefore
raises as well, and since that call sits inside the exception handlers of
`generate_recommendations` and `_parse_unified_response`, the exception
escapes to the caller for every preferences value and every LLM outcome —
the never-fails-outward guarantee holds only for non-empty movie lists. -/
theorem spec_C10 :
    (∀ tp : Json, create_movie_summary [] tp = none)
    ∧ create_fallback_response [] = none
    ∧ (∀ (preferences : Option UserPreferences) (books_count : Nat) (outcome : LLMOutcome),
        generate_recommendations [] preferences books_count outcome = none) := by
  refine ⟨fun tp => rfl, rfl, fun preferences books_count outcome => ?_⟩
  unfold generate_recommendations
  cases outcome with
  | raises => rfl
  | replies content =>
    dsimp only
    unfold parse_unified_response
    cases hp : parse_pipeline content.toList [] with
    | ok rs =>
      have := pipeline_empty content.toList
      rw [hp] at this
      exact this.elim
    | error e => rfl

/-- C6: with only the mood preference set (to any non-empty string), the
generation prompt consists of the fixed core, a constraints block containing
exactly the single bullet line `Mood alignment: <mood>`, and the fixed tail;
with all preference fields unset the prompt has no constraints block at all
(it equals the prompt built without preferences); and with several fields set
the bullet lines appear in the fixed order mood, pace, favoured genres
(comma-joined), avoided genres (comma-joined). -/
theorem string_intercalate_four (s a b c d : String) :
    String.intercalate s [a, b, c, d] = a ++ s ++ b ++ s ++ c ++ s ++ d := rfl

theorem spec_C6 :
    (∀ (movies : List String) (bc : Nat) (m : String), m.isEmpty = false →
      build_unified_prompt movies (some ⟨some m, none, none, none⟩) bc
        = prompt_core movies bc ++ "\n\nCONSTRAINTS:\n• Mood alignment: " ++ m ++ prompt_tail)
    ∧ (∀ (movies : List String) (bc : Nat),
      build_unified_prompt movies (some ⟨none, none, none, none⟩) bc
          = build_unified_prompt movies none bc
        ∧ build_unified_prompt movies none bc = prompt_core movies bc ++ prompt_tail)
    ∧ (∀ (movies : List String) (bc : Nat) (m pc : String) (gp gb : List String),
        m.isEmpty = false → pc.isEmpty = false → gp ≠ [] → gb ≠ [] →
      build_unified_prompt movies (some ⟨some m, some pc, some gp, some gb⟩) bc
        = prompt_core movies bc ++ "\n\nCONSTRAINTS:\n• Mood alignment: " ++ m
          ++ "\n• Pacing: " ++ pc ++ "\n• Favor: " ++ String.intercalate ", " gp
          ++ "\n• Avoid: " ++ String.intercalate ", " gb ++ prompt_tail) := by
  refine ⟨?_, ?_, ?_⟩
  · intro movies bc m hm
    unfold build_unified_prompt constraint_list
    dsimp only
    rw [hm]
    simp only [Bool.false_eq_true, if_false, List.append_nil, List.isEmpty_cons,
      String.append_assoc]
    rfl
  · intro movies bc
    exact ⟨rfl, rfl⟩
  · intro movies bc m pc gp gb hm hpc hgp hgb
    have hgp2 : gp.isEmpty = false := by
      cases gp with
      | nil => exact absurd rfl hgp
      | cons a l => rfl
    have hgb2 : gb.isEmpty = false := by
      cases gb with
      | nil => exact absurd rfl hgb
      | cons a l => rfl
    unfold build_unified_prompt constraint_list
    dsimp only
    rw [hm, hpc, hgp2, hgb2]
    simp only [Bool.false_eq_true, if_false, List.cons_append, List.nil_append,
      List.isEmpty_cons, string_intercalate_four, String.append_assoc]
    rfl

theorem spec_C6_witness :
    "dark".isEmpty = false ∧
      build_unified_prompt ["Inception"] (some ⟨some "dark", none, none, none⟩) 3
        = prompt_core ["Inception"] 3 ++ "\n\nCONSTRAINTS:\n• Mood alignment: "
            ++ "dark" ++ prompt_tail :=
  ⟨rfl, spec_C6.1 ["Inception"] 3 "dark" rfl⟩

/-- C7: a `unified_recommendations` entry whose `title` or `author` key is
missing is skipped by the extraction loop without error; when zero entries
survive the filtering, `_parse_unified_response` routes to the fallback
(matching the explicit `return self._create_fallback_response(movies)` after
the loop); and a parse result, whatever the reply was, never carries an empty
book list. -/
theorem spec_C7 :
    (∀ (kvs : List (String × Json)) (rest : List Json),
        objLookup kvs "title" = none ∨ objLookup kvs "author" = none →
        extract_books (Json.obj kvs :: rest) = extract_books rest)
    ∧ (∀ (data : Json) (movies : List String) (recsJ : Json) (entries : List Json),
        pyContains data "unified_recommendations" = .ok true →
        pyGetDefault data "unified_recommendations" (Json.arr []) = .ok recsJ →
        pyIter recsJ = .ok entries →
        extract_books entries = .ok [] →
        process_data data movies = fallback_or_raise movies)
    ∧ (∀ (content : String) (movies : List String) (rs : List RecommendationResponse),
        parse_unified_response content movies = some rs → ∀ r ∈ rs, r.books ≠ []) := by
  refine ⟨?_, ?_, ?_⟩
  · intro kvs rest h
    have hskip : (!optTruthy (objLookup kvs "title") || !optTruthy (objLookup kvs "author"))
        = true := by
      rcases h with h | h <;> rw [h] <;> simp [optTruthy]
    simp only [extract_books]
    rw [hskip]
    rfl
  · intro data movies recsJ entries h1 h2 h3 h4
    unfold process_data
    rw [h1]
    dsimp only
    rw [h2]
    dsimp only
    rw [h3]
    dsimp only
    rw [h4]
    rfl
  · intro content movies rs h r hr
    unfold parse_unified_response at h
    cases hp : parse_pipeline content.toList movies with
    | ok rs2 =>
      rw [hp] at h
      cases h
      have hsh := pipeline_shape content.toList movies
      rw [hp] at hsh
      obtain ⟨r0, rfl, hr0⟩ := hsh
      rw [List.mem_singleton] at hr
      exact hr ▸ hr0
    | error e =>
      rw [hp] at h
      obtain ⟨s, rfl⟩ := create_fallback_shape movies rs h
      rw [List.mem_singleton] at hr
      subst hr
      exact fallback_books_ne_nil

theorem spec_C7_witness :
    (objLookup [("title", Json.str "OnlyTitle")] "author" = none
      ∧ extract_books [Json.obj [("title", Json.str "OnlyTitle")]] = extract_books [])
    ∧ process_data (Json.obj [("unified_recommendations",
          Json.arr [Json.obj [("title", Json.str "OnlyTitle")]])]) ["Inception"]
        = fallback_or_raise ["Inception"] :=
  ⟨⟨rfl, spec_C7.1 [("title", Json.str "OnlyTitle")] [] (Or.inr rfl)⟩,
    spec_C7.2.1 (Json.obj [("unified_recommendations",
        Json.arr [Json.obj [("title", Json.str "OnlyTitle")]])]) ["Inception"]
      (Json.arr [Json.obj [("title", Json.str "OnlyTitle")]])
      [Json.obj [("title", Json.str "OnlyTitle")]] rfl rfl rfl rfl⟩

/-- C8: the taste profile of a successfully parsed (non-fallback) result is
built from the `taste_profile` sub-object of the decoded reply via `.get` with
defaults: every missing field defaults to the empty string (themes to the
empty list) and a missing `confidence_score` defaults to 0.7; when the
sub-object is absent entirely the empty dict is used, so all fields take the
defaults and parsing still succeeds — missing optional fields never raise. -/
theorem spec_C8 :
    (∀ kvs : List (String × Json), build_taste_profile (Json.obj kvs) = .ok
        { themes := (objLookup kvs "themes").getD (Json.arr []),
          narrative_style := (objLookup kvs "narrative_style").getD (Json.str ""),
          emotional_tone := (objLookup kvs "emotional_tone").getD (Json.str ""),
          genre_fusion := (objLookup kvs "genre_fusion").getD (Json.str ""),
          character_preferences := (objLookup kvs "character_preferences").getD (Json.str ""),
          artistic_sensibilities := (objLookup kvs "artistic_sensibilities").getD (Json.str ""),
          confidence_score := (objLookup kvs "confidence_score").getD (Json.num (7 / 10)) })
    ∧ build_taste_profile (Json.obj []) = .ok
        { themes := Json.arr [], narrative_style := Json.str "", emotional_tone := Json.str "",
          genre_fusion := Json.str "", character_preferences := Json.str "",
          artistic_sensibilities := Json.str "", confidence_score := Json.num (7 / 10) }
    ∧ (∀ (kvs : List (String × Json)) (movies : List String)
          (rs : List RecommendationResponse),
        process_data (Json.obj kvs) movies = .ok rs →
        (∀ s, rs ≠ [{ movie := s, books := fallback_books,
                      taste_profile := fallback_taste_profile }]) →
        ∃ s books tp, rs = [{ movie := s, books := books, taste_profile := tp }]
          ∧ build_taste_profile ((objLookup kvs "taste_profile").getD (Json.obj []))
              = .ok tp) := by
  refine ⟨fun kvs => rfl, rfl, ?_⟩
  intro kvs movies rs h hnf
  have key : match process_data (Json.obj kvs) movies with
      | .ok rs =>
        (∀ s, rs ≠ [{ movie := s, books := fallback_books,
                      taste_profile := fallback_taste_profile }]) →
        ∃ s books tp, rs = [{ movie := s, books := books, taste_profile := tp }]
          ∧ build_taste_profile ((objLookup kvs "taste_profile").getD (Json.obj []))
              = .ok tp
      | .error _ => True := by
    have hfb : match fallback_or_raise movies with
        | .ok rs =>
          (∀ s, rs ≠ [{ movie := s, books := fallback_books,
                        taste_profile := fallback_taste_profile }]) →
          ∃ s books tp, rs = [{ movie := s, books := books, taste_profile := tp }]
            ∧ build_taste_profile ((objLookup kvs "taste_profile").getD (Json.obj []))
                = .ok tp
        | .error (_ : PyErr) => True := by
      cases hf : fallback_or_raise movies with
      | ok rs =>
        obtain ⟨s, rfl⟩ := create_fallback_shape movies rs (fallback_or_raise_ok movies rs hf)
        intro hnf2
        exact absurd rfl (hnf2 s)
      | error e => trivial
    unfold process_data
    dsimp only [pyContains]
    cases hany : kvs.any (fun p => p.1 == "unified_recommendations") with
    | false => exact hfb
    | true =>
      dsimp only [pyGetDefault]
      cases pyIter ((objLookup kvs "unified_recommendations").getD (Json.arr [])) with
      | error e => trivial
      | ok entries =>
        dsimp only
        cases extract_books entries with
        | error e => trivial
        | ok books =>
          dsimp only
          by_cases hbe : books.isEmpty
          · rw [if_pos hbe]; exact hfb
          · rw [if_neg hbe]
            cases hb : build_taste_profile ((objLookup kvs "taste_profile").getD (Json.obj [])) with
            | error e => trivial
            | ok tp =>
              dsimp only
              cases create_movie_summary movies ((objLookup kvs "taste_profile").getD (Json.obj [])) with
              | none => trivial
              | some summary =>
                intro _
                exact ⟨summary, books, tp, rfl, rfl⟩
  rw [h] at key
  exact key hnf

theorem spec_C8_witness :
    process_data
        (Json.obj [("unified_recommendations",
          Json.arr [Json.obj [("title", Json.str "T"), ("author", Json.str "A")]])]) ["M"]
      = .ok [{ movie := "Based on your interest in M",
               books := [{ title := Json.str "T", author := Json.str "A",
                           reason := Json.str "", taste_match_score := none,
                           primary_appeal := none }],
               taste_profile := { themes := Json.arr [], narrative_style := Json.str "",
                                  emotional_tone := Json.str "", genre_fusion := Json.str "",
                                  character_preferences := Json.str "",
                                  artistic_sensibilities := Json.str "",
                                  confidence_score := Json.num (7 / 10) } }]
    ∧ ∃ s books tp,
        ([{ movie := "Based on your interest in M",
            books := [{ title := Json.str "T", author := Json.str "A",
                        reason := Json.str "", taste_match_score := none,
                        primary_appeal := none }],
            taste_profile := { themes := Json.arr [], narrative_style := Json.str "",
                               emotional_tone := Json.str "", genre_fusion := Json.str "",
                               character_preferences := Json.str "",
                               artistic_sensibilities := Json.str "",
                               confidence_score := Json.num (7 / 10) } }]
          : List RecommendationResponse)
          = [{ movie := s, books := books, taste_profile := tp }]
        ∧ build_taste_profile ((objLookup [("unified_recommendations",
              Json.arr [Json.obj [("title", Json.str "T"), ("author", Json.str "A")]])]
              "taste_profile").getD (Json.obj []))
            = .ok tp :=
  ⟨rfl,
    spec_C8.2.2 [("unified_recommendations",
        Json.arr [Json.obj [("title", Json.str "T"), ("author", Json.str "A")]])] ["M"] _
      rfl (by intro s hcon; simp [fallback_books] at hcon)⟩

/-- C9: every failure of `analyze_taste_profile` — a transport exception or
any parsing failure — returns its own fixed hardcoded mapping with confidence
score 0.5, a constant distinct from the generation fallback's taste profile
whose confidence score is 0.6; both fallbacks are constants of pure functions
(no shared state), so no input to one operation can change the value the
other returns. -/
theorem spec_C9 :
    (∀ movies : List String, analyze_taste_profile movies .raises = analyze_fallback)
    ∧ (∀ (movies : List String) (content : String),
        analyze_parse content.toList = .error () →
        analyze_taste_profile movies (.replies content) = analyze_fallback)
    ∧ jsonGet analyze_fallback "confidence_score" = some (Json.num (5 / 10))
    ∧ fallback_taste_profile.confidence_score = Json.num (6 / 10)
    ∧ ((5 : Rat) / 10) ≠ ((6 : Rat) / 10)
    ∧ (∀ (movies : List String) (rs : List RecommendationResponse),
        create_fallback_response movies = some rs →
        ∀ r ∈ rs, r.taste_profile = fallback_taste_profile) := by
  refine ⟨fun movies => rfl, ?_, rfl, rfl, by norm_num, ?_⟩
  · intro movies content h
    simp only [analyze_taste_profile]
    rw [h]
  · intro movies rs h r hr
    obtain ⟨s, rfl⟩ := create_fallback_shape movies rs h
    rw [List.mem_singleton] at hr
    subst hr
    rfl

theorem spec_C9_witness :
    analyze_parse "not json".toList = .error ()
      ∧ analyze_taste_profile ["M"] (.replies "not json") = analyze_fallback :=
  ⟨rfl, spec_C9.2.1 ["M"] "not json" rfl⟩

/-- C2: there is a reply text ending in the truncated string value
`"reason": "a great book` — odd double-quote count in the substring the code
balances, no closing brace after the final quote — for which the parser
closes the object (the quote-balance repair truncates at the last quote and
appends two `\x7d` characters), parses it successfully, and the success path
returns a book whose reason is the (here truncated) text `a great`, a proper
prefix of `a great book`, rather than routing to the fallback.  (Note the
repair can only succeed when the brace scan already found a balanced span: in
this witness the braces are balanced by `\x7d` characters lying inside the
truncated trailing string; for a reply whose brace depth never returns to
zero the parser falls back, see C3.) -/
theorem spec_C2 :
    ∃ (content : String) (movies : List String) (resp : RecommendationResponse)
      (b : BookRecommendation) (js : List Char),
      "\x22reason\x22: \x22a great book".toList.isSuffixOf content.toList = true
      ∧ ((content.toList.reverse.takeWhile (fun c => c != '\x22')).contains '\x7d') = false
      ∧ extract_json_str (clean_content content.toList) = some js
      ∧ countChar '\x22' js % 2 = 1
      ∧ repair_quotes js = truncAtLastQuote js ++ ['\x7d', '\x7d']
      ∧ parse_unified_response content movies = some [resp]
      ∧ resp.books = [b]
      ∧ b.reason = Json.str "a great"
      ∧ List.isPrefixOf "a great".toList "a great book".toList = true
      ∧ "a great" ≠ "a great book"
      ∧ resp.books ≠ fallback_books := by
  refine ⟨c2_reply, ["Inception"],
    { movie := "Based on your interest in Inception",
      books := [{ title := Json.str "T", author := Json.str "A",
                  reason := Json.str "a great", taste_match_score := none,
                  primary_appeal := none }],
      taste_profile := { themes := Json.arr [], narrative_style := Json.str "",
                         emotional_tone := Json.str "", genre_fusion := Json.str "",
                         character_preferences := Json.str "",
                         artistic_sensibilities := Json.str "",
                         confidence_score := Json.num (7 / 10) } },
    { title := Json.str "T", author := Json.str "A", reason := Json.str "a great",
      taste_match_score := none, primary_appeal := none },
    c2_extracted.toList,
    rfl, rfl, rfl, rfl, rfl, rfl, rfl, rfl, rfl, by decide, ?_⟩
  intro h
  have := congrArg List.length h
  simp [fallback_books] at this
